import Mathlib

/-!
A shallow embedding of the DOCX styling and layout engine
(`src/docx_generation/docx_styles.py`): theme registry, document setup,
header/footer composition and the layout primitives (blank response lines,
analysis tables, checklists, highlighted text), together with theorems
about the behaviour claimed in the specification.

Unit conventions: every length is an exact integer number of hundredths of
a centimetre (the source's centimetre literals 0.19, 0.23, 0.35, 0.5, 0.7,
3.5, 17.0, ... are all exact at this scale, so no precision is lost); font
sizes and paragraph spacing are integer points; line-spacing multiples are
integer hundredths (1.15 ↦ 115). Colours are RGB byte triples. A document
is its explicit state: page geometry, the bound colour scheme, the
first-page header / running header / footer block lists, and the body
block list.
-/

namespace DocxStyles

/-- An RGB colour value, mirroring `docx.shared.RGBColor`. -/
structure RGBColor where
  r : Nat
  g : Nat
  b : Nat
deriving DecidableEq, Repr

-- Fonts
def FONT_PRIMARY : String := "Aptos"
def FONT_DISPLAY : String := "Aptos Display"

-- Colours (RGB tuples)
def COLOUR_BLACK : RGBColor := ⟨0, 0, 0⟩
def COLOUR_GREY : RGBColor := ⟨128, 128, 128⟩
def COLOUR_DARK_GREY : RGBColor := ⟨64, 64, 64⟩
def COLOUR_LIGHT_GREY : RGBColor := ⟨242, 242, 242⟩
def COLOUR_CREAM : RGBColor := ⟨255, 250, 240⟩
def COLOUR_YELLOW : RGBColor := ⟨255, 255, 0⟩
def COLOUR_WHITE : RGBColor := ⟨255, 255, 255⟩
def COLOUR_BLUE : RGBColor := ⟨68, 114, 196⟩

-- Sizes (points)
def SIZE_TITLE : Nat := 20
def SIZE_SUBTITLE : Nat := 14
def SIZE_HEADING2 : Nat := 14
def SIZE_HEADING3 : Nat := 12
def SIZE_BODY : Nat := 12
def SIZE_CAPTION : Nat := 10
def SIZE_HEADER_FOOTER : Nat := 10
def SIZE_QUESTION : Nat := 11

-- Page layout (hundredths of a centimetre)
def MARGIN_TOP : Nat := 100
def MARGIN_BOTTOM : Nat := 100
def MARGIN_LEFT : Nat := 200
def MARGIN_RIGHT : Nat := 200
def PAGE_WIDTH_A4 : Nat := 2100
def PAGE_HEIGHT_A4 : Nat := 2970
def CONTENT_WIDTH : Nat := 1700
def HEADER_HEIGHT : Nat := 80
def FOOTER_HEIGHT : Nat := 80

-- Spacing
def SPACING_AFTER_PARA : Nat := 6
def LINE_SPACING : Nat := 115

-- Blank lines (0.7 cm)
def BLANK_LINE_HEIGHT : Nat := 70

/-- The theme registry `COLOUR_SCHEMES`: five built-in palettes, each an
ordered mapping from semantic colour-role names to RGB values, transcribed
from the source dict literal. -/
def COLOUR_SCHEMES : List (String × List (String × RGBColor)) :=
  [ ("professional_minimal",
      [ ("heading", ⟨0, 0, 0⟩),
        ("body", ⟨0, 0, 0⟩),
        ("header_footer", ⟨64, 64, 64⟩),
        ("table_header_bg", ⟨242, 242, 242⟩),
        ("quote_bg", ⟨255, 250, 240⟩),
        ("quote_border", ⟨64, 64, 64⟩),
        ("instruction_bg", ⟨242, 242, 242⟩),
        ("instruction_border", ⟨0, 0, 0⟩),
        ("highlight_evidence", ⟨255, 255, 0⟩),
        ("highlight_terms", ⟨242, 242, 242⟩),
        ("table_border", ⟨0, 0, 0⟩) ]),
    ("academic_blue",
      [ ("heading", ⟨25, 55, 109⟩),
        ("body", ⟨40, 40, 40⟩),
        ("header_footer", ⟨31, 78, 121⟩),
        ("table_header_bg", ⟨217, 225, 242⟩),
        ("quote_bg", ⟨239, 243, 249⟩),
        ("quote_border", ⟨25, 55, 109⟩),
        ("instruction_bg", ⟨217, 225, 242⟩),
        ("instruction_border", ⟨25, 55, 109⟩),
        ("highlight_evidence", ⟨255, 192, 0⟩),
        ("highlight_terms", ⟨217, 225, 242⟩),
        ("table_border", ⟨31, 78, 121⟩) ]),
    ("nature_green",
      [ ("heading", ⟨34, 94, 56⟩),
        ("body", ⟨40, 40, 40⟩),
        ("header_footer", ⟨114, 145, 110⟩),
        ("table_header_bg", ⟨220, 237, 220⟩),
        ("quote_bg", ⟨242, 250, 242⟩),
        ("quote_border", ⟨34, 94, 56⟩),
        ("instruction_bg", ⟨220, 237, 220⟩),
        ("instruction_border", ⟨34, 94, 56⟩),
        ("highlight_evidence", ⟨218, 165, 32⟩),
        ("highlight_terms", ⟨220, 237, 220⟩),
        ("table_border", ⟨114, 145, 110⟩) ]),
    ("creative_vibrant",
      [ ("heading", ⟨75, 0, 130⟩),
        ("body", ⟨40, 40, 40⟩),
        ("header_footer", ⟨147, 51, 234⟩),
        ("table_header_bg", ⟨230, 220, 245⟩),
        ("quote_bg", ⟨245, 240, 250⟩),
        ("quote_border", ⟨75, 0, 130⟩),
        ("instruction_bg", ⟨230, 220, 245⟩),
        ("instruction_border", ⟨75, 0, 130⟩),
        ("highlight_evidence", ⟨255, 140, 0⟩),
        ("highlight_terms", ⟨230, 220, 245⟩),
        ("table_border", ⟨147, 51, 234⟩) ]),
    ("warm_humanities",
      [ ("heading", ⟨154, 48, 19⟩),
        ("body", ⟨40, 40, 40⟩),
        ("header_footer", ⟨191, 87, 0⟩),
        ("table_header_bg", ⟨242, 220, 200⟩),
        ("quote_bg", ⟨255, 250, 240⟩),
        ("quote_border", ⟨154, 48, 19⟩),
        ("instruction_bg", ⟨242, 220, 200⟩),
        ("instruction_border", ⟨154, 48, 19⟩),
        ("highlight_evidence", ⟨184, 134, 11⟩),
        ("highlight_terms", ⟨242, 220, 200⟩),
        ("table_border", ⟨191, 87, 0⟩) ]) ]

def DEFAULT_COLOUR_SCHEME : String := "professional_minimal"

/-- The identifiers of the built-in themes, in registry order. -/
def builtinThemeIds : List String := COLOUR_SCHEMES.map Prod.fst

/-- The eleven colour roles a theme must define. -/
def requiredColourRoles : List String :=
  [ "heading", "body", "header_footer", "table_header_bg", "quote_bg",
    "quote_border", "instruction_bg", "instruction_border",
    "highlight_evidence", "highlight_terms", "table_border" ]

/-- Content of a run: plain text, a field character (`w:fldChar` with its
type attribute), or field instruction text (`w:instrText`). -/
inductive RunContent
  | text (s : String)
  | fldChar (charType : String)
  | instrText (s : String)
deriving DecidableEq, Repr

/-- Paragraph alignment (`WD_ALIGN_PARAGRAPH`). -/
inductive Alignment
  | left
  | center
  | right
deriving DecidableEq, Repr

/-- A run with its direct character formatting; `none` means the property
was not set on the run. Font size in points. -/
structure Run where
  content : RunContent
  fontName : Option String := none
  fontSizePt : Option Nat := none
  colourRGB : Option RGBColor := none
  bold : Option Bool := none
  italic : Option Bool := none
  highlight : Option Nat := none
deriving DecidableEq, Repr

/-- A paragraph: its runs plus the paragraph-level properties the engine
sets (`none` = inherited). Spacing in points, line spacing in hundredths
of a multiple, indent in hundredths of a centimetre. -/
structure Paragraph where
  runs : List Run := []
  style : Option String := none
  alignment : Option Alignment := none
  spaceBeforePt : Option Nat := none
  spaceAfterPt : Option Nat := none
  lineSpacing100 : Option Nat := none
  leftIndentCm100 : Option Nat := none
deriving DecidableEq, Repr

/-- One edge of a cell border set: suppressed (`w:val="nil"`) or a single
line with size (eighths of a point) and colour. -/
inductive BorderVal
  | nil
  | single (sz : Nat) (colour : String)
deriving DecidableEq, Repr

/-- The four borders written into a `w:tcBorders` element; `none` means
the edge was not mentioned. -/
structure CellBorders where
  top : Option BorderVal := none
  left : Option BorderVal := none
  bottom : Option BorderVal := none
  right : Option BorderVal := none
deriving DecidableEq, Repr

/-- A table cell; a freshly created cell holds one empty paragraph.
Width and padding in hundredths of a centimetre. -/
structure Cell where
  paragraphs : List Paragraph := [{}]
  widthCm100 : Option Nat := none
  borders : Option CellBorders := none
  shadingFill : Option String := none
  vAlign : Option String := none
  paddingCm100 : Option Nat := none
deriving DecidableEq, Repr

/-- Row height rule (`WD_ROW_HEIGHT_RULE`). -/
inductive HeightRule
  | auto
  | exactly
  | atLeast
deriving DecidableEq, Repr

/-- A table row; height in hundredths of a centimetre. -/
structure Row where
  cells : List Cell
  heightCm100 : Option Nat := none
  heightRule : Option HeightRule := none
deriving DecidableEq, Repr

/-- A table block; column widths in hundredths of a centimetre. -/
structure Table where
  rows : List Row
  cols : Nat
  tableStyle : Option String := none
  autofit : Bool := true
  allowAutofit : Bool := true
  alignment : Option Alignment := none
  columnWidthsCm100 : List (Option Nat) := []
  tableBordersNil : Bool := false
deriving DecidableEq, Repr

/-- A content block in a document body, header or footer. -/
inductive Block
  | par (p : Paragraph)
  | tbl (t : Table)
  | pageBreak
deriving DecidableEq, Repr

/-- The document state the engine manipulates: bound colour scheme, page
geometry (hundredths of a centimetre), the first-page header / running
header / footer block lists and the body block list. Header and footer
stories start with one empty paragraph, as in a fresh document. -/
structure Document where
  colour_scheme : String := ""
  colours : List (String × RGBColor) := []
  pageWidthCm100 : Nat := 2159
  pageHeightCm100 : Nat := 2794
  leftMarginCm100 : Nat := 254
  rightMarginCm100 : Nat := 254
  topMarginCm100 : Nat := 254
  bottomMarginCm100 : Nat := 254
  headerDistanceCm100 : Nat := 127
  differentFirstPage : Bool := false
  firstPageHeader : List Block := [Block.par {}]
  defaultHeader : List Block := [Block.par {}]
  footer : List Block := [Block.par {}]
  body : List Block := []
deriving DecidableEq, Repr

/-- A freshly constructed document (`Document()` on the default template:
US Letter geometry, one-inch margins, empty body). -/
def blankDocument : Document := {}

/-- The text listing the valid scheme identifiers in the configuration
error message: `", ".join(COLOUR_SCHEMES.keys())`. -/
def availableSchemesText : String :=
  String.intercalate ", " (COLOUR_SCHEMES.map Prod.fst)

/-- `setup_document`: create a new document, validate the colour scheme
(raising `ValueError` naming the unknown scheme and listing the available
ones), bind the scheme's colours, and apply the fixed A4 page geometry. -/
def setup_document (colour_scheme : String) : Except String Document :=
  match COLOUR_SCHEMES.lookup colour_scheme with
  | none =>
      Except.error ("Unknown colour scheme: " ++ colour_scheme ++
        ". Available schemes: " ++ availableSchemesText)
  | some cols =>
      Except.ok { blankDocument with
        colour_scheme := colour_scheme
        colours := cols
        pageWidthCm100 := PAGE_WIDTH_A4
        pageHeightCm100 := PAGE_HEIGHT_A4
        leftMarginCm100 := MARGIN_LEFT
        rightMarginCm100 := MARGIN_RIGHT
        topMarginCm100 := MARGIN_TOP
        bottomMarginCm100 := MARGIN_BOTTOM
        headerDistanceCm100 := HEADER_HEIGHT }

/-! ## Header/footer composer -/

/-- Clear the runs of a paragraph block (`paragraph.clear()` removes the
runs but keeps paragraph-level properties); table blocks are untouched,
exactly as the source's clearing loop over `header.paragraphs`. -/
def clearParagraphRuns : Block → Block
  | Block.par p => Block.par { p with runs := [] }
  | b => b

/-- Mutate the first paragraph of a block story in place (the
`story.paragraphs[0] if story.paragraphs else story.add_paragraph()`
idiom followed by in-place mutation). -/
def updateFirstPara (f : Paragraph → Paragraph) : List Block → List Block
  | [] => [Block.par (f {})]
  | Block.par p :: rest => Block.par (f p) :: rest
  | b :: rest => b :: updateFirstPara f rest

/-- Lower-case a string character by character (`str.lower()`). -/
def pyLower (s : String) : String :=
  String.mk (s.data.map Char.toLower)

/-- `s.startswith(pre)` as a prefix test on the character lists. -/
def pyStartsWith (s pre : String) : Bool :=
  pre.data.isPrefixOf s.data

/-- The year-level normalization at the top of `add_header_footer`:
prepend `"Year "` unless the lower-cased string already starts with
`"year"`. -/
def normalize_year_level (year_level : String) : String :=
  if pyStartsWith (pyLower year_level) "year" then year_level
  else "Year " ++ year_level

/-- The header text built by `add_header_footer`:
`"{year_level} English - {unit_name}"`, with `" - {doc_type}"` appended
when `doc_type` is provided and truthy (a non-empty string). -/
def header_text_of (year_level unit_name : String) (doc_type : Option String) : String :=
  let base := normalize_year_level year_level ++ " English - " ++ unit_name
  match doc_type with
  | none => base
  | some t => if t = "" then base else base ++ " - " ++ t

/-- A header/footer text run: Aptos, 10 pt, dark grey. -/
def headerRun (s : String) : Run :=
  { content := RunContent.text s
    fontName := some FONT_PRIMARY
    fontSizePt := some SIZE_HEADER_FOOTER
    colourRGB := some COLOUR_DARK_GREY }

/-- The underscore name line: `"_" * 26`. -/
def nameLineText : String := String.mk (List.replicate 26 '_')

/-- The two-column first-page header layout table `add_header_footer`
builds when `include_name` is true: left cell (10 cm) holds the header
text left-aligned, right cell (6 cm) holds `"Name: "` followed by the
underscore line, right-aligned; all table borders are suppressed. -/
def headerNameTable (header_text : String) : Table :=
  { rows := [
      { cells := [
          { paragraphs := [
              { runs := [headerRun header_text]
                alignment := some Alignment.left } ]
            widthCm100 := some 1000 },
          { paragraphs := [
              { runs := [headerRun "Name: ", headerRun nameLineText]
                alignment := some Alignment.right } ]
            widthCm100 := some 600 } ] } ]
    cols := 2
    autofit := false
    allowAutofit := false
    tableBordersNil := true }

/-- The three runs of the live page-number field written into the footer:
a field-begin character, the instruction text `" PAGE "`, and a field-end
character. -/
def pageFieldRuns : List Run :=
  [ { content := RunContent.fldChar "begin" },
    { content := RunContent.instrText " PAGE " },
    { content := RunContent.fldChar "end" } ]

/-- `add_header_footer`: enable the different-first-page setting, build
the header text, write the first-page header (a borderless layout table
with a name line when `include_name`, otherwise plain text into the first
paragraph), write the running header into the default header's first
paragraph, and write the right-aligned page-number field into the
footer's first paragraph. The clearing pass over existing header
paragraphs empties their runs only. -/
def add_header_footer (doc : Document) (year_level unit_name : String)
    (doc_type : Option String) (include_name : Bool) : Document :=
  let header_text := header_text_of year_level unit_name doc_type
  let fph := doc.firstPageHeader.map clearParagraphRuns
  let fph :=
    if include_name then
      fph ++ [Block.tbl (headerNameTable header_text)]
    else
      updateFirstPara
        (fun p => { p with
          runs := [headerRun header_text]
          alignment := some Alignment.left }) fph
  let dh := doc.defaultHeader.map clearParagraphRuns
  let dh :=
    updateFirstPara
      (fun p => { p with
        runs := [headerRun header_text]
        alignment := some Alignment.left
        spaceAfterPt := some 6 }) dh
  let ft :=
    updateFirstPara
      (fun p => { p with
        runs := pageFieldRuns
        alignment := some Alignment.right }) doc.footer
  { doc with
    differentFirstPage := true
    firstPageHeader := fph
    defaultHeader := dh
    footer := ft }

/-! ## Blank response lines -/

/-- The bottom-border-only, zero-padding cell of a blank response line. -/
def blankLineCell : Cell :=
  { paragraphs := [{}]
    borders := some
      { top := some BorderVal.nil
        left := some BorderVal.nil
        right := some BorderVal.nil
        bottom := some (BorderVal.single 4 "000000") }
    paddingCm100 := some 0 }

/-- Row `idx` of the blank-lines table: the first row is 0.35 cm high,
subsequent rows `BLANK_LINE_HEIGHT` (0.7 cm), all with rule EXACTLY. -/
def blankLineRow (idx : Nat) : Row :=
  { cells := [blankLineCell]
    heightCm100 := some (if idx = 0 then 35 else BLANK_LINE_HEIGHT)
    heightRule := some HeightRule.exactly }

/-- The table built by `add_blank_lines`: `num_lines` rows, one
content-width column, left-aligned, autofit disabled. -/
def blank_lines_table (num_lines : Nat) : Table :=
  { rows := (List.range num_lines).map blankLineRow
    cols := 1
    autofit := false
    alignment := some Alignment.left
    columnWidthsCm100 := [some CONTENT_WIDTH] }

/-- `add_blank_lines`: append the ruled-lines table to the document body,
followed by a spacing paragraph when `add_spacing`. -/
def add_blank_lines (doc : Document) (num_lines : Nat) (add_spacing : Bool) : Document :=
  let doc := { doc with body := doc.body ++ [Block.tbl (blank_lines_table num_lines)] }
  if add_spacing then
    { doc with body := doc.body ++
        [Block.par { spaceBeforePt := some 0, spaceAfterPt := some 6 }] }
  else doc

/-- `add_half_page_response`: 18 blank lines, no trailing spacing. -/
def add_half_page_response (doc : Document) : Document :=
  add_blank_lines doc 18 false

/-- `add_full_page_response`: 33 blank lines, no trailing spacing. -/
def add_full_page_response (doc : Document) : Document :=
  add_blank_lines doc 33 false

/-- `add_extended_response`: full page when `size == "full"`, otherwise
half page. -/
def add_extended_response (doc : Document) (size : String) : Document :=
  if size = "full" then add_full_page_response doc
  else add_half_page_response doc

/-! ## Analysis (key/value) tables -/

/-- Longest label length over the data, as in the source's running-max
loop over `len(str(key))` (labels are already strings here, so the
coercion is the identity). -/
def analysis_max_label_len (data : List (String × String)) : Nat :=
  data.foldl (fun m kv => max m kv.1.length) 0

/-- The computed left-column width,
`max(1.0, min(max_label_len * 0.23 + 0.5, 3.5))` cm, in hundredths of a
centimetre: `max 100 (min (len * 23 + 50) 350)`. -/
def analysis_optimal_width (data : List (String × String)) : Nat :=
  max 100 (min (analysis_max_label_len data * 23 + 50) 350)

/-- One row of the analysis table for the pair `kv`, given the computed
left-column width: bold left-aligned key cell (optionally shaded, white
text on the legacy blue fill), plain value cell, both vertically centred
with 0.19 cm padding and single-spaced zero-space paragraphs; explicit
cell widths of `colW` and `17.0 cm - colW`. -/
def analysisRow (colW : Nat) (has_header_bg use_blue : Bool) (kv : String × String) : Row :=
  { cells := [
      { paragraphs := [
          { runs := [
              { content := RunContent.text kv.1
                bold := some true
                fontName := some FONT_PRIMARY
                fontSizePt := some SIZE_BODY
                colourRGB :=
                  if has_header_bg then
                    some (if use_blue then COLOUR_WHITE else COLOUR_BLACK)
                  else none } ]
            alignment := some Alignment.left
            spaceBeforePt := some 0
            spaceAfterPt := some 0
            lineSpacing100 := some 100 } ]
        widthCm100 := some colW
        shadingFill :=
          if has_header_bg then some (if use_blue then "4472C4" else "F2F2F2")
          else none
        vAlign := some "center"
        paddingCm100 := some 19 },
      { paragraphs := [
          { runs := [
              { content := RunContent.text kv.2
                fontName := some FONT_PRIMARY
                fontSizePt := some SIZE_BODY } ]
            spaceBeforePt := some 0
            spaceAfterPt := some 0
            lineSpacing100 := some 100 } ]
        widthCm100 := some (1700 - colW)
        vAlign := some "center"
        paddingCm100 := some 19 } ]
    heightRule := some HeightRule.auto }

/-- The table built by `add_analysis_table`: one row per pair, two
columns in Table Grid style with autofit disabled, column widths
`optimal_width` and `17.0 cm - optimal_width`. -/
def analysis_table (data : List (String × String)) (has_header_bg use_blue : Bool) : Table :=
  let w := analysis_optimal_width data
  { rows := data.map (analysisRow w has_header_bg use_blue)
    cols := 2
    tableStyle := some "Table Grid"
    autofit := false
    allowAutofit := false
    columnWidthsCm100 := [some w, some (1700 - w)] }

/-- `add_analysis_table`: append the key/value analysis table to the
document body. -/
def add_analysis_table (doc : Document) (data : List (String × String))
    (has_header_bg use_blue : Bool) : Document :=
  { doc with body := doc.body ++ [Block.tbl (analysis_table data has_header_bg use_blue)] }

/-! ## Checklists and highlighted text -/

/-- The paragraph `add_checklist` appends for one item: Normal style, a
single run `"☐ {item}"`, 1.5 line spacing. -/
def checklistParagraph (item : String) : Paragraph :=
  { runs := [{ content := RunContent.text ("☐ " ++ item) }]
    style := some "Normal"
    lineSpacing100 := some 150 }

/-- `add_checklist`: append one checkbox paragraph per item and return
the list of appended paragraphs. -/
def add_checklist (doc : Document) (items : List String) : Document × List Paragraph :=
  let paras := items.map checklistParagraph
  ({ doc with body := doc.body ++ paras.map Block.par }, paras)

/-- The highlight index applied by `add_highlighted_text`: 7 (YELLOW) for
`"yellow"`, 15 (GRAY_25) for `"grey"`, and none otherwise. -/
def highlightIndexFor (highlight_colour : String) : Option Nat :=
  if highlight_colour = "yellow" then some 7
  else if highlight_colour = "grey" then some 15
  else none

/-- `add_highlighted_text`: append a Normal-style paragraph with one run
of the given text, highlighted per `highlightIndexFor`. -/
def add_highlighted_text (doc : Document) (text : String) (highlight_colour : String) : Document :=
  { doc with body := doc.body ++
      [Block.par
        { runs := [
            { content := RunContent.text text
              highlight := highlightIndexFor highlight_colour } ]
          style := some "Normal" }] }

/-! ## Observation helpers used by the theorem statements -/

/-- `sub` occurs as a contiguous substring of `s`. -/
def strContains (s sub : String) : Prop :=
  ∃ pre post : String, s = pre ++ sub ++ post

/-- The first paragraph of a block story, if any. -/
def firstParagraph : List Block → Option Paragraph
  | [] => none
  | Block.par p :: _ => some p
  | _ :: rest => firstParagraph rest

/-- Number of table blocks in a block story. -/
def countTableBlocks (blocks : List Block) : Nat :=
  (blocks.filter (fun b => match b with | Block.tbl _ => true | _ => false)).length

/-- Concatenated text of a paragraph's plain-text runs. -/
def paragraphText (p : Paragraph) : String :=
  p.runs.foldl
    (fun acc r => acc ++ match r.content with | RunContent.text s => s | _ => "") ""

/-- Text of the first paragraph of a cell. -/
def cellText (c : Cell) : String :=
  match c.paragraphs with
  | p :: _ => paragraphText p
  | [] => ""

/-- The text of cell `j` of the first row of a table. -/
def tableCellText (t : Table) (j : Nat) : Option String :=
  (t.rows.head?.bind fun r => r.cells[j]?).map cellText

/-- The left-zone text of a first-page header whose last block is the
two-column layout table. -/
def headerLeftZoneText (doc : Document) : Option String :=
  match doc.firstPageHeader.getLast? with
  | some (Block.tbl t) => tableCellText t 0
  | _ => none

/-- The runs of the right zone (cell 1) of the first-page header layout
table. -/
def headerRightZoneRuns (doc : Document) : Option (List Run) :=
  match doc.firstPageHeader.getLast? with
  | some (Block.tbl t) =>
      (t.rows.head?.bind fun r => r.cells[1]?).bind fun c =>
        (c.paragraphs.head?).map Paragraph.runs
  | _ => none

/-! ## Theorems -/

/-- C1: for each of the five built-in theme identifiers, `setup_document`
succeeds and its colour mapping defines all 11 required roles; for every
identifier outside the registry it returns no document, raising a
configuration error whose message names the invalid identifier and
contains every valid identifier. -/
theorem setup_document_theme_resolution :
    (∀ id ∈ builtinThemeIds, ∃ d, setup_document id = Except.ok d ∧
        ∀ role ∈ requiredColourRoles, (d.colours.lookup role).isSome = true)
    ∧ (∀ id, COLOUR_SCHEMES.lookup id = none →
        ∃ msg, setup_document id = Except.error msg ∧ strContains msg id ∧
          ∀ v ∈ builtinThemeIds, strContains msg v) := by
  constructor
  · intro id hid
    simp only [builtinThemeIds, COLOUR_SCHEMES, List.map, List.mem_cons,
      List.not_mem_nil, or_false] at hid
    rcases hid with h | h | h | h | h <;> subst h <;>
      exact ⟨_, rfl, by decide⟩
  · intro id h
    refine ⟨"Unknown colour scheme: " ++ id ++ ". Available schemes: " ++
      availableSchemesText, ?_, ?_, ?_⟩
    · simp only [setup_document]
      rw [h]
    · exact ⟨"Unknown colour scheme: ", ". Available schemes: " ++ availableSchemesText,
        by rw [String.append_assoc]⟩
    · intro v hv
      simp only [builtinThemeIds, COLOUR_SCHEMES, List.map, List.mem_cons,
        List.not_mem_nil, or_false] at hv
      have base : ∀ post : String, availableSchemesText = v ++ post →
          strContains ("Unknown colour scheme: " ++ id ++ ". Available schemes: " ++
            availableSchemesText) v := by
        intro post hpost
        exact ⟨"Unknown colour scheme: " ++ id ++ ". Available schemes: ", post,
          by rw [String.append_assoc ("Unknown colour scheme: " ++ id ++
            ". Available schemes: ") v post, hpost]⟩
      have mid : ∀ pre post : String, availableSchemesText = pre ++ (v ++ post) →
          strContains ("Unknown colour scheme: " ++ id ++ ". Available schemes: " ++
            availableSchemesText) v := by
        intro pre post hpost
        refine ⟨"Unknown colour scheme: " ++ id ++ ". Available schemes: " ++ pre, post, ?_⟩
        rw [String.append_assoc ("Unknown colour scheme: " ++ id ++
          ". Available schemes: " ++ pre) v post]
        rw [String.append_assoc ("Unknown colour scheme: " ++ id ++
          ". Available schemes: ") pre (v ++ post), hpost]
      rcases hv with h | h | h | h | h <;> subst h
      · exact base ", academic_blue, nature_green, creative_vibrant, warm_humanities" (by decide)
      · exact mid "professional_minimal, " ", nature_green, creative_vibrant, warm_humanities"
          (by decide)
      · exact mid "professional_minimal, academic_blue, " ", creative_vibrant, warm_humanities"
          (by decide)
      · exact mid "professional_minimal, academic_blue, nature_green, " ", warm_humanities"
          (by decide)
      · exact mid "professional_minimal, academic_blue, nature_green, creative_vibrant, " ""
          (by decide)

/-- C1 witness: the theorem applied to the built-in identifier
`"professional_minimal"` and to the invalid identifier `"fancy_theme"`. -/
theorem setup_document_theme_resolution_witness :
    (∃ d, setup_document "professional_minimal" = Except.ok d ∧
        ∀ role ∈ requiredColourRoles, (d.colours.lookup role).isSome = true)
    ∧ (∃ msg, setup_document "fancy_theme" = Except.error msg ∧
        strContains msg "fancy_theme" ∧ ∀ v ∈ builtinThemeIds, strContains msg v) :=
  ⟨setup_document_theme_resolution.1 "professional_minimal" (by decide),
   setup_document_theme_resolution.2 "fancy_theme" (by decide)⟩

/-- C2 counterexample: on a fresh document,
`add_header_footer(doc, "Year 10", "Media Studies", "Quiz", include_name=True)`
puts `"Year 10 English - Media Studies - Quiz"` in the left zone of the
first-page header — not `"Year 10 Media Studies - Quiz"` as claimed: the
engine inserts `" English - "` between the year level and the unit name. -/
theorem header_left_zone_text_counterexample :
    headerLeftZoneText
        (add_header_footer blankDocument "Year 10" "Media Studies" (some "Quiz") true)
      = some "Year 10 English - Media Studies - Quiz"
    ∧ headerLeftZoneText
        (add_header_footer blankDocument "Year 10" "Media Studies" (some "Quiz") true)
      ≠ some "Year 10 Media Studies - Quiz" := by
  decide

/-- C2 (amended): `add_header_footer(doc, "Year 10", "Media Studies",
"Quiz", include_name=True)` produces a first-page header whose left-zone
text is exactly `"Year 10 English - Media Studies - Quiz"` (header text
built as `"{yearLevel} English - {unitName}"`, appending `" - {docType}"`
when a non-empty docType is provided), and whose right zone is a
`"Name: "` label followed by an underscore line of fixed length 26. -/
theorem header_first_page_zones (doc : Document) :
    headerLeftZoneText
        (add_header_footer doc "Year 10" "Media Studies" (some "Quiz") true)
      = some "Year 10 English - Media Studies - Quiz"
    ∧ (∃ rs, headerRightZoneRuns
          (add_header_footer doc "Year 10" "Media Studies" (some "Quiz") true) = some rs
        ∧ rs.map Run.content = [RunContent.text "Name: ", RunContent.text nameLineText]
        ∧ nameLineText.length = 26
        ∧ nameLineText.data.all (fun c => c == '_') = true)
    ∧ (∀ yl u, header_text_of yl u none = normalize_year_level yl ++ " English - " ++ u)
    ∧ (∀ yl u t, t ≠ "" →
        header_text_of yl u (some t) = normalize_year_level yl ++ " English - " ++ u ++ " - " ++ t) := by
  refine ⟨?_, ?_, fun yl u => rfl, fun yl u t ht => ?_⟩
  · simp only [headerLeftZoneText, add_header_footer, if_true]
    rw [List.getLast?_concat]
    decide
  · refine ⟨[headerRun "Name: ", headerRun nameLineText], ?_, by decide, by decide, by decide⟩
    simp only [headerRightZoneRuns, add_header_footer, if_true]
    rw [List.getLast?_concat]
    decide
  · simp only [header_text_of]
    rw [if_neg ht]

/-- C2 witness: the amended header-text build rule applied to the
concrete docType `"Quiz"`. -/
theorem header_first_page_zones_witness :
    header_text_of "Year 10" "Media Studies" (some "Quiz")
      = normalize_year_level "Year 10" ++ " English - " ++ "Media Studies" ++ " - " ++ "Quiz" :=
  (header_first_page_zones blankDocument).2.2.2 "Year 10" "Media Studies" "Quiz" (by decide)

/-- C3: on any document, the half-page response primitive appends a
1-column table of exactly 18 rows and the full-page response primitive a
1-column table of exactly 33 rows, as the sole appended block, whatever
the prior body content. -/
theorem response_area_row_counts (doc : Document) :
    (∃ t, (add_half_page_response doc).body = doc.body ++ [Block.tbl t]
        ∧ t.rows.length = 18 ∧ t.cols = 1)
    ∧ (∃ t, (add_full_page_response doc).body = doc.body ++ [Block.tbl t]
        ∧ t.rows.length = 33 ∧ t.cols = 1) := by
  exact ⟨⟨blank_lines_table 18, by simp [add_half_page_response, add_blank_lines],
          by decide, rfl⟩,
         ⟨blank_lines_table 33, by simp [add_full_page_response, add_blank_lines],
          by decide, rfl⟩⟩

/-- C4: for every non-empty pair list, the analysis table's left column
width is `clamp(L * 0.23 + 0.5, 1.0, 3.5)` cm (here in hundredths:
`max 100 (min (L * 23 + 50) 350)`) where `L` is the longest label's
character count, the right column is `17.0` cm minus the left width,
every row's cells carry these same max-derived widths, and for labels
`["A", "Connotations"]` the left width is 3.26 cm (326). -/
theorem analysis_table_column_widths (doc : Document) (data : List (String × String))
    (hbg ub : Bool) (_hne : data ≠ []) :
    ∃ t, (add_analysis_table doc data hbg ub).body = doc.body ++ [Block.tbl t]
      ∧ t.columnWidthsCm100 =
          [some (max 100 (min (analysis_max_label_len data * 23 + 50) 350)),
           some (1700 - max 100 (min (analysis_max_label_len data * 23 + 50) 350))]
      ∧ (∀ r ∈ t.rows, r.cells.map Cell.widthCm100 =
          [some (max 100 (min (analysis_max_label_len data * 23 + 50) 350)),
           some (1700 - max 100 (min (analysis_max_label_len data * 23 + 50) 350))])
      ∧ (∀ va vb, analysis_optimal_width [("A", va), ("Connotations", vb)] = 326) := by
  refine ⟨analysis_table data hbg ub, rfl, rfl, ?_, fun va vb => rfl⟩
  intro r hr
  simp only [analysis_table, List.mem_map] at hr
  obtain ⟨kv, -, rfl⟩ := hr
  rfl

/-- C4 witness: the theorem applied to the data
`[("A", "x"), ("Connotations", "y")]`, where the left width is 326
hundredths of a centimetre (3.26 cm). -/
theorem analysis_table_column_widths_witness :
    ∃ t, (add_analysis_table blankDocument [("A", "x"), ("Connotations", "y")] true false).body
        = blankDocument.body ++ [Block.tbl t]
      ∧ t.columnWidthsCm100 =
          [some (max 100 (min (analysis_max_label_len [("A", "x"), ("Connotations", "y")] * 23 + 50) 350)),
           some (1700 - max 100 (min (analysis_max_label_len [("A", "x"), ("Connotations", "y")] * 23 + 50) 350))]
      ∧ (∀ r ∈ t.rows, r.cells.map Cell.widthCm100 =
          [some (max 100 (min (analysis_max_label_len [("A", "x"), ("Connotations", "y")] * 23 + 50) 350)),
           some (1700 - max 100 (min (analysis_max_label_len [("A", "x"), ("Connotations", "y")] * 23 + 50) 350))])
      ∧ (∀ va vb, analysis_optimal_width [("A", va), ("Connotations", vb)] = 326) :=
  analysis_table_column_widths blankDocument [("A", "x"), ("Connotations", "y")] true false
    (by decide)

/-- C5 (the clear-then-write claim fails): calling `add_header_footer` a
second time on the same document does NOT replace the first-page header
content — the paragraph-clearing pass removes only paragraph runs, so
the layout table written by the first call survives and the second
call's table is appended after it: after two calls the first-page header
holds the tables of BOTH calls, and differs from the header a single
(second) call would have produced. -/
theorem add_header_footer_second_call_retains_first_table :
    countTableBlocks
        (add_header_footer
          (add_header_footer blankDocument "10" "Media" (some "Quiz") true)
          "11" "Poetry" (some "Handout") true).firstPageHeader = 2
    ∧ (add_header_footer
          (add_header_footer blankDocument "10" "Media" (some "Quiz") true)
          "11" "Poetry" (some "Handout") true).firstPageHeader
        = [Block.par {},
           Block.tbl (headerNameTable "Year 10 English - Media - Quiz"),
           Block.tbl (headerNameTable "Year 11 English - Poetry - Handout")]
    ∧ (add_header_footer
          (add_header_footer blankDocument "10" "Media" (some "Quiz") true)
          "11" "Poetry" (some "Handout") true).firstPageHeader
        ≠ (add_header_footer blankDocument "11" "Poetry" (some "Handout") true).firstPageHeader := by
  decide

/-- C6: empty input collections never raise — `add_checklist` with an
empty item list appends nothing and returns an empty paragraph list, and
`add_analysis_table` with zero pairs appends a zero-row table block. -/
theorem empty_collections_degrade (doc : Document) (hbg ub : Bool) :
    (add_checklist doc []).2 = []
    ∧ (add_checklist doc []).1 = doc
    ∧ ∃ t, (add_analysis_table doc [] hbg ub).body = doc.body ++ [Block.tbl t]
        ∧ t.rows = [] := by
  refine ⟨rfl, ?_, analysis_table [] hbg ub, rfl, rfl⟩
  simp [add_checklist]

/-- The first paragraph of a story after the in-place first-paragraph
update is the updated one (a fresh empty paragraph when the story had
none). -/
theorem firstParagraph_updateFirstPara (f : Paragraph → Paragraph) (bs : List Block) :
    firstParagraph (updateFirstPara f bs) = some (f ((firstParagraph bs).getD {})) := by
  induction bs with
  | nil => rfl
  | cons b rest ih =>
    cases b with
    | par p => rfl
    | tbl t => simpa [updateFirstPara, firstParagraph] using ih
    | pageBreak => simpa [updateFirstPara, firstParagraph] using ih

/-- C7: after any `add_header_footer` call the footer's first paragraph
is right-aligned and consists exactly of a live OOXML page-number field:
a field-begin character, the instruction text `" PAGE "`, and a
field-end character — not a static literal number. -/
theorem footer_page_number_field (doc : Document) (yl u : String)
    (dt : Option String) (inc : Bool) :
    ∃ p, firstParagraph (add_header_footer doc yl u dt inc).footer = some p
      ∧ p.runs.map Run.content =
          [RunContent.fldChar "begin", RunContent.instrText " PAGE ", RunContent.fldChar "end"]
      ∧ p.alignment = some Alignment.right := by
  refine ⟨{ (firstParagraph doc.footer).getD {} with
            runs := pageFieldRuns
            alignment := some Alignment.right }, ?_, rfl, rfl⟩
  simp only [add_header_footer]
  exact firstParagraph_updateFirstPara
    (fun p => { p with runs := pageFieldRuns, alignment := some Alignment.right }) doc.footer

/-- C8: for every `num_lines ≥ 1`, `add_blank_lines` appends a 1-column
table of exactly `num_lines` rows; row 0 is 0.35 cm high and every later
row 0.7 cm, every row's height rule is EXACTLY, and each cell carries a
bottom border only (top, left and right suppressed) with zero padding. -/
theorem add_blank_lines_rows (doc : Document) (num_lines : Nat) (sp : Bool)
    (i : Nat) (hi : i < num_lines) :
    ∃ t rest, (add_blank_lines doc num_lines sp).body = doc.body ++ Block.tbl t :: rest
      ∧ t.rows.length = num_lines
      ∧ t.cols = 1
      ∧ t.rows[i]? = some
          { cells := [
              { paragraphs := [{}]
                borders := some
                  { top := some BorderVal.nil
                    left := some BorderVal.nil
                    bottom := some (BorderVal.single 4 "000000")
                    right := some BorderVal.nil }
                paddingCm100 := some 0 } ]
            heightCm100 := some (if i = 0 then 35 else 70)
            heightRule := some HeightRule.exactly } := by
  refine ⟨blank_lines_table num_lines,
    if sp then [Block.par { spaceBeforePt := some 0, spaceAfterPt := some 6 }] else [],
    ?_, ?_, rfl, ?_⟩
  · cases sp <;> simp [add_blank_lines]
  · simp [blank_lines_table]
  · simp only [blank_lines_table, List.getElem?_map, List.getElem?_range hi, Option.map_some]
    rfl

/-- C8 witness: the theorem at `num_lines = 2`, row 1 (0.7 cm high). -/
theorem add_blank_lines_rows_witness :
    ∃ t rest, (add_blank_lines blankDocument 2 true).body
        = blankDocument.body ++ Block.tbl t :: rest
      ∧ t.rows.length = 2
      ∧ t.cols = 1
      ∧ t.rows[1]? = some
          { cells := [
              { paragraphs := [{}]
                borders := some
                  { top := some BorderVal.nil
                    left := some BorderVal.nil
                    bottom := some (BorderVal.single 4 "000000")
                    right := some BorderVal.nil }
                paddingCm100 := some 0 } ]
            heightCm100 := some (if 1 = 0 then 35 else 70)
            heightRule := some HeightRule.exactly } :=
  add_blank_lines_rows blankDocument 2 true 1 (by decide)

/-- C9: `add_header_footer` normalizes its year level — when the
lower-cased string does not start with `"year"`, `"Year "` is prepended
before the header text is built, and otherwise the value is unchanged;
consequently calling with `"10"` and with `"Year 10"` yields identical
documents. -/
theorem year_level_normalization (doc : Document) (u : String)
    (dt : Option String) (inc : Bool) :
    (∀ yl, pyStartsWith (pyLower yl) "year" = false →
        normalize_year_level yl = "Year " ++ yl)
    ∧ (∀ yl, pyStartsWith (pyLower yl) "year" = true →
        normalize_year_level yl = yl)
    ∧ add_header_footer doc "10" u dt inc = add_header_footer doc "Year 10" u dt inc := by
  refine ⟨fun yl h => ?_, fun yl h => ?_, ?_⟩
  · simp [normalize_year_level, h]
  · simp [normalize_year_level, h]
  · unfold add_header_footer
    rw [show header_text_of "10" u dt = header_text_of "Year 10" u dt by
      unfold header_text_of
      rw [show normalize_year_level "10" = normalize_year_level "Year 10" by decide]]

/-- C9 witness: the normalization at `"10"` and `"Year 10"`, and the
equality of the two calls on a fresh document. -/
theorem year_level_normalization_witness :
    normalize_year_level "10" = "Year " ++ "10"
    ∧ normalize_year_level "Year 10" = "Year 10"
    ∧ add_header_footer blankDocument "10" "Poetry" none true
        = add_header_footer blankDocument "Year 10" "Poetry" none true :=
  ⟨(year_level_normalization blankDocument "Poetry" none true).1 "10" (by decide),
   (year_level_normalization blankDocument "Poetry" none true).2.1 "Year 10" (by decide),
   (year_level_normalization blankDocument "Poetry" none true).2.2⟩

/-- C10: for every highlight tone outside `{"yellow", "grey"}`,
`add_highlighted_text` silently appends a Normal-style paragraph with
the given text and no highlight at all, raising nothing. -/
theorem unknown_highlight_tone_ignored (doc : Document) (text hc : String)
    (h1 : hc ≠ "yellow") (h2 : hc ≠ "grey") :
    (add_highlighted_text doc text hc).body = doc.body ++
      [Block.par
        { runs := [{ content := RunContent.text text, highlight := none }]
          style := some "Normal" }] := by
  simp [add_highlighted_text, highlightIndexFor, h1, h2]

/-- C10 witness: the theorem at the unknown tone `"pink"`. -/
theorem unknown_highlight_tone_ignored_witness :
    (add_highlighted_text blankDocument "the evidence" "pink").body = blankDocument.body ++
      [Block.par
        { runs := [{ content := RunContent.text "the evidence", highlight := none }]
          style := some "Normal" }] :=
  unknown_highlight_tone_ignored blankDocument "the evidence" "pink" (by decide) (by decide)

end DocxStyles
